import Mathlib

set_option autoImplicit false

/-
Verification development for the Postgres-DB-Backup repository.

The Python sources (main.py, backup_prod_db.py, config.py) are shallowly
embedded below.  External effects (subprocess outcomes, the file system,
the database server) are modelled as oracle values carried in explicit
world records; each operation returns the log lines it emits, the trace
of database/subprocess events it performs, and its result (success or a
domain error, mirroring the Python exception classes).  Info-level
logging is modelled only where the specification refers to it; warnings
and errors are modelled throughout.
-/

/-- Severity of a log record, mirroring the logging levels used by the
scripts. -/
inductive LogLevel
  | debug
  | info
  | warning
  | error
  deriving DecidableEq, Repr

/-- One emitted log record. -/
structure LogEntry where
  level : LogLevel
  msg : String
  deriving DecidableEq, Repr

/-- The domain error classes of the scripts: DatabaseBackupError,
DatabaseRestoreError and BackupRestoreProcessError. -/
inductive PipelineError
  | backupError (msg : String)
  | restoreError (msg : String)
  | processError (msg : String)
  deriving DecidableEq, Repr

/-- The fields of a completed subprocess.CompletedProcess that the
scripts inspect. -/
structure CompletedProcess where
  returncode : Nat
  stdout : String
  stderr : String
  deriving DecidableEq, Repr

/-- Oracle for one subprocess.run call: the external tool either ran to
completion with some exit code or hit the wall-clock timeout. -/
inductive ProcOutcome
  | completed (p : CompletedProcess)
  | timedOut
  deriving DecidableEq, Repr

/-- The exceptions subprocess.run can raise when called with check=True
and a timeout. -/
inductive RunFailure
  | timeoutExpired
  | calledProcessError (returncode : Nat) (stdout stderr : String)
  deriving DecidableEq, Repr

/-- Semantics of subprocess.run(cmd, check=True, timeout=...): a timeout
raises TimeoutExpired, a non-zero exit raises CalledProcessError, and
otherwise the completed process is returned. -/
def runChecked : ProcOutcome → Except RunFailure CompletedProcess
  | .timedOut => .error .timeoutExpired
  | .completed p =>
      if p.returncode ≠ 0 then
        .error (.calledProcessError p.returncode p.stdout p.stderr)
      else
        .ok p

/-- Observable actions an operation performs against the database server
or the operating system. -/
inductive Event
  | connectDb (dbname : String) (useLocal : Bool)
  | setAutocommit
  | executeSql (q : String)
  | commitTx
  | closeDb
  | procRun (cmd : List String)
  deriving DecidableEq, Repr

/-- Result of one pipeline operation: its log output, its event trace,
and either success or the domain error it raised. -/
structure OpOut where
  logs : List LogEntry
  events : List Event
  ok : Except PipelineError Bool
  deriving Repr

/-- Whether an operation returned without raising. -/
def opOk (o : OpOut) : Bool :=
  match o.ok with
  | .ok _ => true
  | .error _ => false

/-! ## Configuration (config.py and the module-level reads) -/

/-- The raw config.yaml mapping: an association list from key to value.
An absent key is a key not in the list; an empty string models a falsy
value (empty or null in the YAML). -/
abbrev RawConfig := List (String × String)

/-- Dictionary lookup on the raw configuration. -/
def lookupRaw (raw : RawConfig) (k : String) : Option String :=
  (raw.find? (fun p => p.1 = k)).map (fun p => p.2)

/-- The required keys checked by validate_environment in main.py. -/
def required_configs : List String :=
  ["db_name", "db_owner", "db_admin", "db_host", "db_port", "script_root_path"]

/-- The keys validate_environment reports: required keys that are absent
or have a falsy value. -/
def missing_configs (raw : RawConfig) : List String :=
  required_configs.filter (fun k =>
    match lookupRaw raw k with
    | none => true
    | some v => v = "")

/-- The module-level configuration values read at import time by
backup_prod_db.py and main.py. -/
structure LoadedConfig where
  db_name : String
  db_owner : String
  db_admin : String
  db_host : String
  db_port : String
  local_db_name : String
  local_db_owner : String
  local_db_admin : String
  local_db_host : String
  local_db_port : String
  script_root_path : String
  db_dev_name : String
  deriving DecidableEq, Repr

/-- Dictionary access config[k]: raises KeyError (the error case) when
the key is absent. -/
def requireKey (raw : RawConfig) (k : String) : Except String String :=
  match lookupRaw raw k with
  | none => .error k
  | some v => .ok v

/-- Dictionary access config.get(k, d): the default is used only when
the key is absent, even if the present value is empty. -/
def getOr (raw : RawConfig) (k d : String) : String :=
  (lookupRaw raw k).getD d

/-- Module import of backup_prod_db.py (and then main.py): the required
keys are read with bare dictionary access in source order, so the first
absent key raises a KeyError before any validation runs; the local_*
keys are read with .get and defaults. -/
def loadConfig (raw : RawConfig) : Except String LoadedConfig := do
  let n ← requireKey raw "db_name"
  let o ← requireKey raw "db_owner"
  let a ← requireKey raw "db_admin"
  let h ← requireKey raw "db_host"
  let p ← requireKey raw "db_port"
  let root ← requireKey raw "script_root_path"
  let dev ← requireKey raw "db_dev_name"
  .ok
    { db_name := n
      db_owner := o
      db_admin := a
      db_host := h
      db_port := p
      local_db_name := getOr raw "local_db_name" "ngceng_prod_db"
      local_db_owner := getOr raw "local_db_owner" "postgres"
      local_db_admin := getOr raw "local_db_admin" "ngceng"
      local_db_host := getOr raw "local_db_host" "localhost"
      local_db_port := getOr raw "local_db_port" "5432"
      script_root_path := root
      db_dev_name := dev }

/-! ## Password lookup (read_pgpass_password in backup_prod_db.py) -/

/-- State of the ~/.pgpass file as the function can observe it: absent,
present but unreadable (opening or reading raises), or its lines. -/
inductive PgpassFile
  | absent
  | unreadable
  | content (lines : List String)
  deriving DecidableEq, Repr

/-- One loop iteration of read_pgpass_password: strip the line, skip it
when empty or a comment, split on colons, require at least five fields,
rejoin the password fields, and compare the first four fields against
the request with the star wildcard. -/
def pgpassLineMatch (host port database username : String)
    (line : String) : Option String :=
  let l := line.trim
  if l ≠ "" ∧ ¬ l.startsWith "#" then
    match l.splitOn ":" with
    | ph :: pp :: pd :: pu :: rest =>
        if rest ≠ [] then
          if (ph = host ∨ ph = "*") ∧ (pp = port ∨ pp = "*") ∧
             (pd = database ∨ pd = "*") ∧ (pu = username ∨ pu = "*") then
            some (String.intercalate ":" rest)
          else
            none
        else
          none
    | _ => none
  else
    none

/-- read_pgpass_password: returns the password of the first matching
line, and None when the file is absent, unreadable, or no line matches.
The condition rest equal nil encodes len(parts) less than 5. -/
def read_pgpass_password (file : PgpassFile)
    (host port database username : String) : Option String :=
  match file with
  | .absent => none
  | .unreadable => none
  | .content lines =>
      lines.findSome? (pgpassLineMatch host port database username)

/-- Modelled from the claim wording for comparison: a candidate line is
non-empty after trimming, not a comment, has at least five
colon-separated fields, and its first four fields each equal the request
or are the star wildcard. -/
def pgpassSpecMatches (host port database username : String)
    (line : String) : Bool :=
  let l := line.trim
  let parts := l.splitOn ":"
  l ≠ "" && ¬ l.startsWith "#" && decide (parts.length ≥ 5) &&
    (parts.take 4).length == 4 &&
    (List.zip (parts.take 4) [host, port, database, username]).all
      (fun q => q.1 == q.2 || q.1 == "*")

/-- Modelled from the claim wording: the password of a line is
everything after the fourth colon. -/
def pgpassPasswordField (line : String) : String :=
  String.intercalate ":" ((line.trim.splitOn ":").drop 4)

/-- Modelled from the claim wording: find the first candidate line and
return its password field; None when the file is absent or unreadable
or nothing matches. -/
def pgpassLookupSpec (file : PgpassFile)
    (host port database username : String) : Option String :=
  match file with
  | .absent => none
  | .unreadable => none
  | .content lines =>
      (lines.find? (pgpassSpecMatches host port database username)).map
        pgpassPasswordField

/-! ## Backup (backup_database in backup_prod_db.py) -/

/-- Oracle for one run of the backup step: the observed free disk
space, whether the backup directory already exists, the pg_dump
outcome, and the state of the output file afterwards. -/
structure BackupWorld where
  freeSpace : Nat
  dirExists : Bool
  pgDump : ProcOutcome
  fileCreated : Bool
  fileSize : Nat
  deriving DecidableEq, Repr

/-- The pg_dump command line built by backup_database. -/
def pg_dump_cmd (cfg : LoadedConfig) (backup_path : String) : List String :=
  ["pg_dump",
   "-h" ++ cfg.db_host,
   "-U" ++ cfg.db_admin,
   "-d" ++ cfg.db_name,
   "--no-owner",
   "--format=custom",
   "-v",
   "-f" ++ backup_path]

/-- validate_backup_prerequisites: create the directory when absent and
warn on low disk space; purely advisory, never fails. -/
def validate_backup_prerequisites (w : BackupWorld) : List LogEntry :=
  (if ¬ w.dirExists then
    [⟨.info, "Creating backup directory"⟩]
  else
    []) ++
  [⟨.info, "Available disk space bytes: " ++ toString w.freeSpace⟩] ++
  (if w.freeSpace < 1024 ^ 3 then
    [⟨.warning, "Low disk space detected - backup may fail"⟩]
  else
    [])

/-- backup_database: run pg_dump with check=True and a 300 second
timeout; a timeout or non-zero exit raises DatabaseBackupError, a
missing output file raises DatabaseBackupError, and an undersized
output file only logs a warning.  The backup_file argument is used for
logging only. -/
def backup_database (cfg : LoadedConfig) (w : BackupWorld)
    (backup_file backup_path : String) : OpOut :=
  let preLogs : List LogEntry :=
    [⟨.info, "Starting backup operation for REMOTE database: " ++ cfg.db_name⟩,
     ⟨.info, "Backup file: " ++ backup_file⟩,
     ⟨.info, "Backup path: " ++ backup_path⟩] ++
    validate_backup_prerequisites w
  let cmd := pg_dump_cmd cfg backup_path
  let evs := [Event.procRun cmd]
  match runChecked w.pgDump with
  | .error .timeoutExpired =>
      { logs := preLogs
        events := evs
        ok := .error (.backupError "Backup operation timed out after 5 minutes") }
  | .error (.calledProcessError rc _ _) =>
      { logs := preLogs
        events := evs
        ok := .error (.backupError
          ("pg_dump failed with return code " ++ toString rc)) }
  | .ok p =>
      if p.returncode ≠ 0 then
        -- mirrors the explicit returncode re-check after check=True in the
        -- source; unreachable because runChecked already rejected it, and
        -- the inner raise is rewrapped by the generic except clause
        { logs := preLogs
          events := evs
          ok := .error (.backupError
            ("Unexpected error during backup: pg_dump exited with return code "
              ++ toString p.returncode)) }
      else if ¬ w.fileCreated then
        { logs := preLogs
          events := evs
          ok := .error (.backupError
            ("Unexpected error during backup: Backup file was not created: "
              ++ backup_path)) }
      else
        { logs := preLogs ++
            [⟨.info, "Backup file created successfully. Size bytes: "
              ++ toString w.fileSize⟩] ++
            (if w.fileSize < 1024 then
              [⟨.warning, "Backup file size is very small (" ++
                toString w.fileSize ++ " bytes) - this may indicate an issue"⟩]
            else
              []) ++
            [⟨.info, "Database backup completed successfully"⟩]
          events := evs
          ok := .ok true }

/-! ## Session drain (disconnect_users in backup_prod_db.py) -/

/-- One row of pg_stat_activity as far as the queries inspect it. -/
structure Session where
  pid : Nat
  datname : String
  leaderPid : Option Nat
  deriving DecidableEq, Repr

/-- Oracle for one run of the drain step: whether the connection opens,
the pg_stat_activity rows at the first count, the per-pid result of
pg_terminate_backend, and the rows at the re-count. -/
structure DrainWorld where
  connectOk : Bool
  ownPid : Nat
  sessions : List Session
  termResult : Nat → Bool
  sessionsAfter : List Session

/-- The counting query issued by disconnect_users. -/
def count_query (n : String) : String :=
  "SELECT count(*) FROM pg_stat_activity WHERE datname='" ++ n ++
    "' AND pid <> pg_backend_pid() AND leader_pid IS NULL;"

/-- The termination query issued by disconnect_users. -/
def terminate_query (n : String) : String :=
  "SELECT pg_terminate_backend(pid) FROM pg_stat_activity WHERE pid <> pg_backend_pid() AND datname='"
    ++ n ++ "' AND leader_pid IS NULL;"

/-- The row filter shared by both queries: same database, not the
callers own backend, and no leader backend (parallel workers are
excluded). -/
def drainMatches (n : String) (ownPid : Nat) (s : Session) : Bool :=
  s.datname == n && s.pid != ownPid && s.leaderPid == none

/-- disconnect_users: count the matching sessions; when zero return
immediately, otherwise issue the set-based terminate statement,
re-count, warn when sessions remain, and succeed regardless. -/
def disconnect_users (cfg : LoadedConfig) (w : DrainWorld) : OpOut :=
  if ¬ w.connectOk then
    { logs := [⟨.error, "Unexpected error during user disconnection"⟩]
      events := [Event.connectDb cfg.local_db_name true]
      ok := .error (.backupError
        "Unexpected error during user disconnection: connection failed") }
  else
    let base := [Event.connectDb cfg.local_db_name true,
                 Event.executeSql (count_query cfg.local_db_name)]
    let activeRows := w.sessions.filter (drainMatches cfg.local_db_name w.ownPid)
    let active := activeRows.length
    if active = 0 then
      { logs := [⟨.info, "Found 0 active connections to terminate"⟩,
                 ⟨.info, "No active connections to terminate"⟩]
        events := base ++ [Event.closeDb]
        ok := .ok true }
    else
      let successCount := ((activeRows.map (fun s => s.pid)).filter w.termResult).length
      let remaining :=
        (w.sessionsAfter.filter (drainMatches cfg.local_db_name w.ownPid)).length
      { logs := [⟨.info, "Found " ++ toString active ++
                   " active connections to terminate"⟩,
                 ⟨.info, "Successfully terminated " ++ toString successCount ++
                   " connections"⟩] ++
          (if remaining > 0 then
            [⟨.warning, toString remaining ++
              " connections still active after termination attempt"⟩]
          else
            [⟨.info, "All connections successfully terminated"⟩])
        events := base ++ [Event.executeSql (terminate_query cfg.local_db_name),
                           Event.executeSql (count_query cfg.local_db_name),
                           Event.closeDb]
        ok := .ok true }

/-! ## Drop and recreate (recreate_target_db in backup_prod_db.py) -/

/-- Oracle for one run of the recreate step: whether the connection
opens, whether the existence check finds the target, and whether the
drop and create statements succeed. -/
structure RecreateWorld where
  connectOk : Bool
  dbExists : Bool
  dropOk : Bool
  createOk : Bool
  deriving DecidableEq, Repr

/-- The existence check issued by recreate_target_db. -/
def check_query (n : String) : String :=
  "SELECT 1 FROM pg_database WHERE datname = '" ++ n ++ "'"

/-- The drop statement issued by recreate_target_db. -/
def dropdb_query (n : String) : String :=
  "DROP DATABASE " ++ n ++ ";"

/-- The create statement issued by recreate_target_db. -/
def createdb_query (n o : String) : String :=
  "CREATE DATABASE " ++ n ++ " OWNER " ++ o ++ ";"

/-- recreate_target_db: connect to the configured dev database, switch
the session to autocommit, check pg_database for the target, drop it
only when found, and create it owned by the configured owner.  Any
database error is wrapped in a DatabaseBackupError. -/
def recreate_target_db (cfg : LoadedConfig) (w : RecreateWorld) : OpOut :=
  if ¬ w.connectOk then
    { logs := [⟨.error, "Unexpected error during database recreation"⟩]
      events := [Event.connectDb cfg.db_dev_name true]
      ok := .error (.backupError
        "Unexpected error during database recreation: connection failed") }
  else
    let pre := [Event.connectDb cfg.db_dev_name true,
                Event.setAutocommit,
                Event.executeSql (check_query cfg.local_db_name)]
    if w.dbExists then
      if ¬ w.dropOk then
        { logs := [⟨.error, "Database error during recreation"⟩]
          events := pre ++ [Event.executeSql (dropdb_query cfg.local_db_name),
                            Event.closeDb]
          ok := .error (.backupError "Database error during recreation: drop failed") }
      else if ¬ w.createOk then
        { logs := [⟨.error, "Database error during recreation"⟩]
          events := pre ++ [Event.executeSql (dropdb_query cfg.local_db_name),
                            Event.executeSql
                              (createdb_query cfg.local_db_name cfg.local_db_owner),
                            Event.closeDb]
          ok := .error (.backupError "Database error during recreation: create failed") }
      else
        { logs := [⟨.info, "LOCAL database dropped successfully"⟩,
                   ⟨.info, "LOCAL database created successfully with owner "
                     ++ cfg.local_db_owner⟩]
          events := pre ++ [Event.executeSql (dropdb_query cfg.local_db_name),
                            Event.executeSql
                              (createdb_query cfg.local_db_name cfg.local_db_owner),
                            Event.closeDb]
          ok := .ok true }
    else
      if ¬ w.createOk then
        { logs := [⟨.error, "Database error during recreation"⟩]
          events := pre ++ [Event.executeSql
                              (createdb_query cfg.local_db_name cfg.local_db_owner),
                            Event.closeDb]
          ok := .error (.backupError "Database error during recreation: create failed") }
      else
        { logs := [⟨.info, "LOCAL database does not exist, skipping drop"⟩,
                   ⟨.info, "LOCAL database created successfully with owner "
                     ++ cfg.local_db_owner⟩]
          events := pre ++ [Event.executeSql
                              (createdb_query cfg.local_db_name cfg.local_db_owner),
                            Event.closeDb]
          ok := .ok true }

/-! ## Restore (restore_database in backup_prod_db.py) -/

/-- Oracle for one run of the restore step: the observed state of the
backup artifact and the outcomes of the two pg_restore invocations. -/
structure RestoreWorld where
  fileExists : Bool
  fileIsFile : Bool
  fileSize : Nat
  schemaRun : ProcOutcome
  dataRun : ProcOutcome
  deriving DecidableEq, Repr

/-- The schema-phase pg_restore command line. -/
def schema_restore_cmd (cfg : LoadedConfig) (backup_path : String) : List String :=
  ["pg_restore", "-v", "-e",
   "-h" ++ cfg.local_db_host,
   "-U" ++ cfg.local_db_owner,
   "--schema-only",
   "--single-transaction",
   "--role=" ++ cfg.local_db_owner,
   "--dbname=" ++ cfg.local_db_name,
   backup_path]

/-- The data-phase pg_restore command line. -/
def data_restore_cmd (cfg : LoadedConfig) (backup_path : String) : List String :=
  ["pg_restore", "-v", "-e",
   "-h" ++ cfg.local_db_host,
   "-U" ++ cfg.local_db_owner,
   "--data-only",
   "--single-transaction",
   "--exit-on-error",
   "--role=" ++ cfg.local_db_owner,
   "--dbname=" ++ cfg.local_db_name,
   backup_path]

/-- restore_database: check the backup artifact exists and is a regular
file (its size is only logged), run the schema-phase pg_restore with
check=True and a 300 second timeout, and only after it returns exit
code zero run the data-phase pg_restore with a 600 second timeout.
Every failure raises DatabaseRestoreError. -/
def restore_database (cfg : LoadedConfig) (w : RestoreWorld)
    (backup_path : String) : OpOut :=
  if ¬ w.fileExists then
    { logs := [⟨.error, "Backup file does not exist: " ++ backup_path⟩]
      events := []
      ok := .error (.restoreError
        ("Unexpected error during restore: Backup file does not exist: "
          ++ backup_path)) }
  else if ¬ w.fileIsFile then
    { logs := [⟨.error, "Backup path is not a file: " ++ backup_path⟩]
      events := []
      ok := .error (.restoreError
        ("Unexpected error during restore: Backup path is not a file: "
          ++ backup_path)) }
  else
    let sizeLog : List LogEntry :=
      [⟨.info, "Backup file size bytes: " ++ toString w.fileSize⟩]
    let schemaCmd := schema_restore_cmd cfg backup_path
    match runChecked w.schemaRun with
    | .error .timeoutExpired =>
        { logs := sizeLog
          events := [Event.procRun schemaCmd]
          ok := .error (.restoreError "Restore operation timed out") }
    | .error (.calledProcessError rc _ _) =>
        { logs := sizeLog
          events := [Event.procRun schemaCmd]
          ok := .error (.restoreError
            ("pg_restore failed with return code " ++ toString rc)) }
    | .ok p =>
        if p.returncode ≠ 0 then
          -- mirrors the explicit returncode re-check after check=True in
          -- the source; unreachable because runChecked already rejected it
          { logs := sizeLog
            events := [Event.procRun schemaCmd]
            ok := .error (.restoreError
              ("Schema restore failed with return code " ++ toString p.returncode)) }
        else
          let dataCmd := data_restore_cmd cfg backup_path
          let schemaLogs := sizeLog ++
            [⟨.info, "Schema restore completed successfully"⟩]
          match runChecked w.dataRun with
          | .error .timeoutExpired =>
              { logs := schemaLogs
                events := [Event.procRun schemaCmd, Event.procRun dataCmd]
                ok := .error (.restoreError "Restore operation timed out") }
          | .error (.calledProcessError rc _ _) =>
              { logs := schemaLogs
                events := [Event.procRun schemaCmd, Event.procRun dataCmd]
                ok := .error (.restoreError
                  ("pg_restore failed with return code " ++ toString rc)) }
          | .ok q =>
              if q.returncode ≠ 0 then
                { logs := schemaLogs
                  events := [Event.procRun schemaCmd, Event.procRun dataCmd]
                  ok := .error (.restoreError
                    ("Data restore failed with return code " ++ toString q.returncode)) }
              else
                { logs := schemaLogs ++
                    [⟨.info, "Data restore completed successfully"⟩,
                     ⟨.info, "Full database restore completed successfully"⟩]
                  events := [Event.procRun schemaCmd, Event.procRun dataCmd]
                  ok := .ok true }

/-! ## Ownership (alter_db_owner in backup_prod_db.py) -/

/-- Oracle for one run of the ownership step: whether the connection
opens and whether the grant and alter statements succeed. -/
structure AlterWorld where
  connectOk : Bool
  grantOk : Bool
  alterOk : Bool
  deriving DecidableEq, Repr

/-- The grant statement issued by alter_db_owner. -/
def grant_query (n a : String) : String :=
  "GRANT ALL PRIVILEGES ON DATABASE " ++ n ++ " TO " ++ a ++ ";"

/-- The alter-owner statement issued by alter_db_owner. -/
def owner_query (n o : String) : String :=
  "ALTER DATABASE " ++ n ++ " OWNER TO " ++ o ++ ";"

/-- alter_db_owner: connect to the target, grant all privileges to the
admin role and commit, then transfer ownership to the owner role and
commit; the session is closed in every outcome. -/
def alter_db_owner (cfg : LoadedConfig) (w : AlterWorld) : OpOut :=
  if ¬ w.connectOk then
    { logs := [⟨.error, "Unexpected error during ownership change"⟩]
      events := [Event.connectDb cfg.local_db_name true]
      ok := .error (.backupError
        "Unexpected error during ownership change: connection failed") }
  else if ¬ w.grantOk then
    { logs := [⟨.error, "Database error during ownership change"⟩]
      events := [Event.connectDb cfg.local_db_name true,
                 Event.executeSql (grant_query cfg.local_db_name cfg.local_db_admin),
                 Event.closeDb]
      ok := .error (.backupError "Database error during ownership change: grant failed") }
  else if ¬ w.alterOk then
    { logs := [⟨.error, "Database error during ownership change"⟩]
      events := [Event.connectDb cfg.local_db_name true,
                 Event.executeSql (grant_query cfg.local_db_name cfg.local_db_admin),
                 Event.commitTx,
                 Event.executeSql (owner_query cfg.local_db_name cfg.local_db_owner),
                 Event.closeDb]
      ok := .error (.backupError "Database error during ownership change: alter failed") }
  else
    { logs := [⟨.info, "All privileges granted to " ++ cfg.local_db_admin⟩,
               ⟨.info, "LOCAL DB owner altered to " ++ cfg.local_db_owner⟩]
      events := [Event.connectDb cfg.local_db_name true,
                 Event.executeSql (grant_query cfg.local_db_name cfg.local_db_admin),
                 Event.commitTx,
                 Event.executeSql (owner_query cfg.local_db_name cfg.local_db_owner),
                 Event.commitTx,
                 Event.closeDb]
      ok := .ok true }

/-! ## Retention sweep (cleanup_old_backups in main.py) -/

/-- One file in the backup directory as the sweep observes it. -/
structure FileEntry where
  name : String
  mtime : Int
  size : Nat
  deriving DecidableEq, Repr

/-- Whether the glob pattern star-dot-sql used by the sweep matches a
file name. -/
def sqlGlobMatch (name : String) : Bool :=
  name.endsWith ".sql"

/-- cleanup_old_backups: when the directory exists, delete exactly the
sql-suffixed files whose modification time is strictly below the
cutoff (now minus keep_days days); exceptions are swallowed, so the
sweep never fails the pipeline.  Returns the log lines and the deleted
entries. -/
def cleanup_old_backups (dirExists : Bool) (files : List FileEntry)
    (now : Int) (keep_days : Int) : List LogEntry × List FileEntry :=
  if ¬ dirExists then
    ([⟨.info, "Backup directory does not exist, skipping cleanup"⟩], [])
  else
    let cutoff := now - keep_days * 24 * 3600
    let deleted := files.filter (fun f =>
      sqlGlobMatch f.name && decide (f.mtime < cutoff))
    (deleted.map (fun f => ⟨.info, "Cleaned up old backup: " ++ f.name⟩) ++
      [if deleted.length > 0 then
        ⟨.info, "Cleaned up " ++ toString deleted.length ++ " old backup files"⟩
      else
        ⟨.info, "No old backup files to clean up"⟩],
     deleted)

/-! ## Pipeline driver (main in main.py) -/

/-- The six pipeline steps tracked by operations_status, in order. -/
inductive Step
  | environment_validation
  | backup
  | disconnect_users
  | recreate_db
  | restore
  | alter_owner
  deriving DecidableEq, Repr

/-- The fixed step order of the pipeline. -/
def stepOrder : List Step :=
  [Step.environment_validation, Step.backup, Step.disconnect_users,
   Step.recreate_db, Step.restore, Step.alter_owner]

/-- The operations_status record of main: one completion flag per
step. -/
structure OpsStatus where
  environment_validation : Bool
  backup : Bool
  disconnect_users : Bool
  recreate_db : Bool
  restore : Bool
  alter_owner : Bool
  deriving DecidableEq, Repr

/-- The status flags in pipeline order. -/
def statusList (s : OpsStatus) : List Bool :=
  [s.environment_validation, s.backup, s.disconnect_users,
   s.recreate_db, s.restore, s.alter_owner]

/-- The status record in which exactly the first k steps are marked
complete. -/
def statusUpTo (k : Nat) : OpsStatus :=
  { environment_validation := decide (1 ≤ k)
    backup := decide (2 ≤ k)
    disconnect_users := decide (3 ≤ k)
    recreate_db := decide (4 ≤ k)
    restore := decide (5 ≤ k)
    alter_owner := decide (6 ≤ k) }

/-- validate_environment in main.py: collect the required keys that are
absent or falsy and raise BackupRestoreProcessError naming them when
any are found. -/
def validate_environment (raw : RawConfig) : OpOut :=
  let missing := missing_configs raw
  if missing ≠ [] then
    let msg := "Missing required configuration values: " ++
      String.intercalate ", " missing
    { logs := [⟨.error, msg⟩], events := [], ok := .error (.processError msg) }
  else
    { logs := [⟨.info, "Environment validation passed"⟩], events := [], ok := .ok true }

/-- Oracle for one whole pipeline run: the per-step worlds, the
timestamp used in the backup file name, and the state of the backup
directory at cleanup time. -/
structure World where
  backupW : BackupWorld
  drainW : DrainWorld
  recreateW : RecreateWorld
  restoreW : RestoreWorld
  alterW : AlterWorld
  timestamp : String
  cleanupDirExists : Bool
  files : List FileEntry
  now : Int

/-- The backup file name main builds from the database name and the
start-time stamp. -/
def backupFileName (cfg : LoadedConfig) (w : World) : String :=
  cfg.db_name ++ "_" ++ w.timestamp ++ ".sql"

/-- The backup path main builds with os.path.join. -/
def backupPath (cfg : LoadedConfig) (w : World) : String :=
  "_db_backups/" ++ backupFileName cfg w

/-- Everything observable about one run of main: the exit code, the
final and intermediate operations_status records, which steps were
started, the concatenated event trace and logs, whether the retention
sweep ran, what it deleted, and the error main caught (if any). -/
structure MainResult where
  exitCode : Nat
  status : OpsStatus
  snapshots : List OpsStatus
  stepsStarted : List Step
  events : List Event
  logs : List LogEntry
  cleanupRan : Bool
  deleted : List FileEntry
  err : Option PipelineError

/-- The failure branch of main: exit code 1, the status as of the
failing step, and no retention sweep. -/
def failResult (k : Nat) (evs : List Event) (lgs : List LogEntry)
    (e : PipelineError) : MainResult :=
  { exitCode := 1
    status := statusUpTo k
    snapshots := (List.range (k + 1)).map statusUpTo
    stepsStarted := stepOrder.take (k + 1)
    events := evs
    logs := lgs
    cleanupRan := false
    deleted := []
    err := some e }

/-- main in main.py: run the six steps in order, marking each complete
in operations_status only after it returns; any DatabaseBackupError,
DatabaseRestoreError or BackupRestoreProcessError aborts the remaining
steps and yields exit code 1; after all six succeed, run the retention
sweep with keep_days equal 7 and yield exit code 0. -/
def mainRun (raw : RawConfig) (cfg : LoadedConfig) (w : World) : MainResult :=
  let v := validate_environment raw
  match v.ok with
  | .error e => failResult 0 v.events v.logs e
  | .ok _ =>
    let b := backup_database cfg w.backupW (backupFileName cfg w) (backupPath cfg w)
    match b.ok with
    | .error e => failResult 1 (v.events ++ b.events) (v.logs ++ b.logs) e
    | .ok _ =>
      let d := disconnect_users cfg w.drainW
      match d.ok with
      | .error e =>
          failResult 2 (v.events ++ b.events ++ d.events)
            (v.logs ++ b.logs ++ d.logs) e
      | .ok _ =>
        let rc := recreate_target_db cfg w.recreateW
        match rc.ok with
        | .error e =>
            failResult 3 (v.events ++ b.events ++ d.events ++ rc.events)
              (v.logs ++ b.logs ++ d.logs ++ rc.logs) e
        | .ok _ =>
          let rs := restore_database cfg w.restoreW (backupPath cfg w)
          match rs.ok with
          | .error e =>
              failResult 4
                (v.events ++ b.events ++ d.events ++ rc.events ++ rs.events)
                (v.logs ++ b.logs ++ d.logs ++ rc.logs ++ rs.logs) e
          | .ok _ =>
            let al := alter_db_owner cfg w.alterW
            match al.ok with
            | .error e =>
                failResult 5
                  (v.events ++ b.events ++ d.events ++ rc.events ++ rs.events
                    ++ al.events)
                  (v.logs ++ b.logs ++ d.logs ++ rc.logs ++ rs.logs ++ al.logs) e
            | .ok _ =>
              let cl := cleanup_old_backups w.cleanupDirExists w.files w.now 7
              { exitCode := 0
                status := statusUpTo 6
                snapshots := (List.range 7).map statusUpTo
                stepsStarted := stepOrder
                events := v.events ++ b.events ++ d.events ++ rc.events
                  ++ rs.events ++ al.events
                logs := v.logs ++ b.logs ++ d.logs ++ rc.logs ++ rs.logs
                  ++ al.logs ++ cl.1
                cleanupRan := true
                deleted := cl.2
                err := none }

/-- Outcome of launching the script: either a KeyError escaping the
module-level configuration reads, or a completed run of main. -/
inductive StartOutcome
  | keyError (key : String)
  | ran (r : MainResult)

/-- Process startup: import the modules (reading the required keys) and
then run main. -/
def startup (raw : RawConfig) (w : World) : StartOutcome :=
  match loadConfig raw with
  | .error k => .keyError k
  | .ok cfg => .ran (mainRun raw cfg w)

/-- Whether the i-th pipeline step (0-based, in stepOrder order) returns
successfully in the given run. -/
def stepOk (raw : RawConfig) (cfg : LoadedConfig) (w : World) : Nat → Bool
  | 0 => opOk (validate_environment raw)
  | 1 => opOk (backup_database cfg w.backupW (backupFileName cfg w) (backupPath cfg w))
  | 2 => opOk (disconnect_users cfg w.drainW)
  | 3 => opOk (recreate_target_db cfg w.recreateW)
  | 4 => opOk (restore_database cfg w.restoreW (backupPath cfg w))
  | 5 => opOk (alter_db_owner cfg w.alterW)
  | _ => true

/-! ## Helper lemmas -/

/-- The loop body of read_pgpass_password agrees pointwise with the
candidate predicate and password extraction written from the claim. -/
lemma pgpassLineMatch_eq (h p d u l : String) :
    pgpassLineMatch h p d u l =
      if pgpassSpecMatches h p d u l then some (pgpassPasswordField l) else none := by
  unfold pgpassLineMatch pgpassSpecMatches pgpassPasswordField
  rcases hs : l.trim.splitOn ":" with _ | ⟨ph, _ | ⟨pp, _ | ⟨pd', _ | ⟨pu, rest⟩⟩⟩⟩ <;>
    simp only [hs] <;>
    split_ifs <;>
    simp_all [List.zip, List.all, Nat.succ_le_iff, List.length_cons]

/-- An early-return loop over an option-valued body equals finding the
first element satisfying the guard and applying the extraction. -/
lemma findSome?_eq_find?_map {α β : Type} (f : α → Option β) (g : α → Bool)
    (ext : α → β) (hf : ∀ a, f a = if g a then some (ext a) else none)
    (l : List α) :
    l.findSome? f = (l.find? g).map ext := by
  induction l with
  | nil => simp
  | cons a t ih =>
      cases hg : g a <;>
        simp [List.findSome?_cons, List.find?_cons, hf a, hg, ih]

/-- Claim C9: for every credentials-file content, the password lookup
returns the password field (everything after the fourth colon, so
colons in passwords survive) of the first non-empty, non-comment line
with at least five colon-separated fields whose first four fields each
equal the requested host, port, database and user or are the star
wildcard; when no line matches, the file is absent, or reading it
fails, the lookup returns none and never raises. -/
theorem read_pgpass_password_correct (file : PgpassFile) (h p d u : String) :
    read_pgpass_password file h p d u = pgpassLookupSpec file h p d u := by
  cases file with
  | absent => rfl
  | unreadable => rfl
  | content lines =>
      exact findSome?_eq_find?_map _ _ _ (pgpassLineMatch_eq h p d u) lines

/-- The two pg_restore command lines always differ (the data phase adds
the exit-on-error flag), so membership of one in a trace never matches
the other. -/
lemma data_ne_schema (cfg : LoadedConfig) (path : String) :
    data_restore_cmd cfg path ≠ schema_restore_cmd cfg path := by
  intro h
  have := congrArg List.length h
  simp [data_restore_cmd, schema_restore_cmd] at this

/-- The schema phase failed: pg_restore timed out or exited non-zero. -/
def schemaPhaseFails (w : RestoreWorld) : Prop :=
  w.schemaRun = ProcOutcome.timedOut ∨
    ∃ p, w.schemaRun = ProcOutcome.completed p ∧ p.returncode ≠ 0

/-! ## Shared concrete fixtures -/

/-- A fully populated configuration used by concrete runs. -/
def cfgDemo : LoadedConfig :=
  { db_name := "ngceng"
    db_owner := "scuc"
    db_admin := "ngadmin"
    db_host := "prod.example.com"
    db_port := "5432"
    local_db_name := "ngceng_prod_db"
    local_db_owner := "postgres"
    local_db_admin := "ngceng"
    local_db_host := "localhost"
    local_db_port := "5432"
    script_root_path := "/opt/dbbackup"
    db_dev_name := "ngceng_dev" }

/-- A subprocess outcome with exit code zero. -/
def procZero : ProcOutcome := ProcOutcome.completed ⟨0, "", "ok"⟩

/-- A restore-step world in which both phases succeed on a healthy
artifact. -/
def restoreWOk : RestoreWorld :=
  { fileExists := true, fileIsFile := true, fileSize := 52428800
    schemaRun := procZero, dataRun := procZero }

/-- A restore-step world in which the schema phase exits with code 1. -/
def restoreWSchemaFail : RestoreWorld :=
  { fileExists := true, fileIsFile := true, fileSize := 52428800
    schemaRun := ProcOutcome.completed ⟨1, "", "schema boom"⟩, dataRun := procZero }

/-! ## Claim theorems -/

/-- Claim C2: in every execution of restore_database the data phase is
invoked only when the schema phase completed with exit code zero, and
when the schema phase fails or times out the data phase is skipped and
a restore-specific error is raised. -/
theorem restore_schema_before_data (cfg : LoadedConfig) (w : RestoreWorld)
    (path : String) :
    (Event.procRun (data_restore_cmd cfg path) ∈ (restore_database cfg w path).events →
      ∃ p, w.schemaRun = ProcOutcome.completed p ∧ p.returncode = 0) ∧
    (schemaPhaseFails w →
      Event.procRun (data_restore_cmd cfg path) ∉ (restore_database cfg w path).events ∧
      ∃ msg, (restore_database cfg w path).ok = .error (.restoreError msg)) := by
  unfold restore_database
  constructor
  · intro hmem
    by_cases he : w.fileExists
    · by_cases hf : w.fileIsFile
      · simp only [he, hf, Bool.not_true, Bool.false_eq_true, if_false, ite_false,
          Bool.not_eq_true] at hmem
        cases hs : w.schemaRun with
        | timedOut => simp [runChecked, hs, data_ne_schema] at hmem
        | completed p =>
            by_cases hrc : p.returncode = 0
            · exact ⟨p, rfl, hrc⟩
            · simp [runChecked, hs, hrc, data_ne_schema] at hmem
      · simp [he, hf] at hmem
    · simp [he] at hmem
  · intro hfail
    rcases hfail with hto | ⟨p, hp, hrc⟩
    · by_cases he : w.fileExists <;> by_cases hf : w.fileIsFile <;>
        simp [he, hf, hto, runChecked, data_ne_schema]
    · by_cases he : w.fileExists <;> by_cases hf : w.fileIsFile <;>
        simp [he, hf, hp, hrc, runChecked, data_ne_schema]

/-- Witness for claim C2 at two concrete restore worlds: a run whose
trace contains the data-phase command and had a zero-exit schema phase,
and a schema-failure run that skips the data phase and raises. -/
theorem restore_schema_before_data_witness :
    (∃ p, restoreWOk.schemaRun = ProcOutcome.completed p ∧ p.returncode = 0) ∧
    (Event.procRun (data_restore_cmd cfgDemo "_db_backups/x.sql") ∉
      (restore_database cfgDemo restoreWSchemaFail "_db_backups/x.sql").events ∧
     ∃ msg, (restore_database cfgDemo restoreWSchemaFail "_db_backups/x.sql").ok =
       .error (.restoreError msg)) :=
  ⟨(restore_schema_before_data cfgDemo restoreWOk "_db_backups/x.sql").1 (by decide),
   (restore_schema_before_data cfgDemo restoreWSchemaFail "_db_backups/x.sql").2
     (Or.inr ⟨⟨1, "", "schema boom"⟩, rfl, by decide⟩)⟩

/-- Claim C10: two backup invocations with the same backup_path but
different backup_file arguments execute the same command line, perform
the same checks and produce the same result; backup_file only shows up
in logging. -/
theorem backup_file_argument_irrelevant (cfg : LoadedConfig) (w : BackupWorld)
    (f1 f2 p : String) :
    (backup_database cfg w f1 p).events = (backup_database cfg w f2 p).events ∧
    (backup_database cfg w f1 p).ok = (backup_database cfg w f2 p).ok := by
  unfold backup_database
  cases hr : runChecked w.pgDump with
  | error e => cases e <;> simp
  | ok p' =>
      by_cases h0 : p'.returncode = 0 <;>
        by_cases hc : w.fileCreated <;>
          simp [h0, hc]

/-- The backup step failed: pg_dump timed out, exited non-zero, or
exited zero without producing the output file. -/
def backupStepFails (w : BackupWorld) : Prop :=
  w.pgDump = ProcOutcome.timedOut ∨
    (∃ p, w.pgDump = ProcOutcome.completed p ∧ p.returncode ≠ 0) ∨
    (∃ p, w.pgDump = ProcOutcome.completed p ∧ p.returncode = 0 ∧ w.fileCreated = false)

/-- All six pipeline steps return successfully in the given run. -/
def allStepsSucceed (raw : RawConfig) (cfg : LoadedConfig) (w : World) : Prop :=
  ∀ i, i < 6 → stepOk raw cfg w i = true

/-- A raw configuration supplying every key the scripts read. -/
def rawDemo : RawConfig :=
  [("db_name", "ngceng"), ("db_owner", "scuc"), ("db_admin", "ngadmin"),
   ("db_host", "prod.example.com"), ("db_port", "5432"),
   ("script_root_path", "/opt/dbbackup"), ("db_dev_name", "ngceng_dev")]

/-- A backup-step world in which pg_dump succeeds and a 50 MB artifact
appears. -/
def backupWOk : BackupWorld :=
  { freeSpace := 1099511627776, dirExists := true, pgDump := procZero,
    fileCreated := true, fileSize := 52428800 }

/-- A backup-step world in which pg_dump exits with code 1. -/
def backupWFail : BackupWorld :=
  { freeSpace := 1099511627776, dirExists := true,
    pgDump := ProcOutcome.completed ⟨1, "", "dump err"⟩,
    fileCreated := true, fileSize := 0 }

/-- A drain-step world with no other active sessions. -/
def drainWOk : DrainWorld :=
  { connectOk := true, ownPid := 100, sessions := [],
    termResult := fun _ => true, sessionsAfter := [] }

/-- A recreate-step world in which the target exists and both
statements succeed. -/
def recreateWOk : RecreateWorld :=
  { connectOk := true, dbExists := true, dropOk := true, createOk := true }

/-- An ownership-step world in which everything succeeds. -/
def alterWOk : AlterWorld :=
  { connectOk := true, grantOk := true, alterOk := true }

/-- A pipeline world in which every step succeeds. -/
def worldOk : World :=
  { backupW := backupWOk, drainW := drainWOk, recreateW := recreateWOk,
    restoreW := restoreWOk, alterW := alterWOk, timestamp := "20240101120000",
    cleanupDirExists := true, files := [], now := 1704110400 }

/-- The all-success pipeline world except that pg_dump fails. -/
def worldBackupFail : World := { worldOk with backupW := backupWFail }

/-- A backup file old enough to fall before the retention cutoff. -/
def oldSqlFile : FileEntry :=
  { name := "ngceng_20230101000000.sql", mtime := 1672531200, size := 1048576 }

/-- The backup file produced during the demo run itself. -/
def freshSqlFile : FileEntry :=
  { name := "ngceng_20240101120000.sql", mtime := 1704110300, size := 52428800 }

/-- The all-success pipeline world with an old and a fresh backup file
in the backup directory at sweep time. -/
def worldFiles : World := { worldOk with files := [oldSqlFile, freshSqlFile] }

/-- A configuration with no missing values succeeds validation. -/
lemma validate_ok_of_no_missing {raw : RawConfig} (h : missing_configs raw = []) :
    validate_environment raw =
      { logs := [⟨.info, "Environment validation passed"⟩], events := [],
        ok := .ok true } := by
  simp [validate_environment, h]

/-- A failing backup world makes backup_database raise a
DatabaseBackupError after having executed only the pg_dump command. -/
lemma backup_fails_of (cfg : LoadedConfig) (w : BackupWorld) (f p : String)
    (h : backupStepFails w) :
    ∃ msg, (backup_database cfg w f p).ok = .error (.backupError msg) ∧
      (backup_database cfg w f p).events = [Event.procRun (pg_dump_cmd cfg p)] := by
  rcases h with hto | ⟨q, hq, hrc⟩ | ⟨q, hq, hrc, hfc⟩
  · exact ⟨"Backup operation timed out after 5 minutes",
      by simp [backup_database, runChecked, hto],
      by simp [backup_database, runChecked, hto]⟩
  · exact ⟨"pg_dump failed with return code " ++ toString q.returncode,
      by simp [backup_database, runChecked, hq, hrc],
      by simp [backup_database, runChecked, hq, hrc]⟩
  · exact ⟨"Unexpected error during backup: Backup file was not created: " ++ p,
      by simp [backup_database, runChecked, hq, hrc, hfc],
      by simp [backup_database, runChecked, hq, hrc, hfc]⟩

/-- A successful operation result is an ok value. -/
lemma opOk_ok {o : OpOut} (h : opOk o = true) : ∃ b, o.ok = .ok b := by
  unfold opOk at h
  cases ho : o.ok with
  | ok b => exact ⟨b, rfl⟩
  | error e => rw [ho] at h; simp at h

/-- An ok value makes opOk true. -/
lemma opOk_of_ok {o : OpOut} {b : Bool} (h : o.ok = .ok b) : opOk o = true := by
  simp [opOk, h]

/-- Claim C1: when the backup step fails (pg_dump exits non-zero, times
out, or the output file is absent) in a run whose validation passed,
main records a backup-specific error, never starts the drain, recreate,
restore or re-own steps, performs no further external action, and exits
with code 1; conversely a run in which all six steps succeed exits with
code 0. -/
theorem backup_failure_halts (raw : RawConfig) (cfg : LoadedConfig) (w : World) :
    (missing_configs raw = [] → backupStepFails w.backupW →
      ∃ msg,
        (mainRun raw cfg w).err = some (.backupError msg) ∧
        (mainRun raw cfg w).exitCode = 1 ∧
        (mainRun raw cfg w).stepsStarted = [Step.environment_validation, Step.backup] ∧
        (mainRun raw cfg w).events = [Event.procRun (pg_dump_cmd cfg (backupPath cfg w))] ∧
        (mainRun raw cfg w).cleanupRan = false) ∧
    (allStepsSucceed raw cfg w → (mainRun raw cfg w).exitCode = 0) := by
  constructor
  · intro hmiss hbf
    obtain ⟨msg, hok, hev⟩ :=
      backup_fails_of cfg w.backupW (backupFileName cfg w) (backupPath cfg w) hbf
    refine ⟨msg, ?_⟩
    simp [mainRun, validate_ok_of_no_missing hmiss, hok, hev, failResult,
      stepOrder, List.range_succ]
  · intro hall
    obtain ⟨b0, h0⟩ := opOk_ok (hall 0 (by omega))
    obtain ⟨b1, h1⟩ := opOk_ok (hall 1 (by omega))
    obtain ⟨b2, h2⟩ := opOk_ok (hall 2 (by omega))
    obtain ⟨b3, h3⟩ := opOk_ok (hall 3 (by omega))
    obtain ⟨b4, h4⟩ := opOk_ok (hall 4 (by omega))
    obtain ⟨b5, h5⟩ := opOk_ok (hall 5 (by omega))
    simp [mainRun, h0, h1, h2, h3, h4, h5]

/-- Witness for claim C1: a concrete run whose pg_dump exits 1 halts
with a backup error and exit code 1, and the all-success run exits 0. -/
theorem backup_failure_halts_witness :
    (∃ msg,
      (mainRun rawDemo cfgDemo worldBackupFail).err = some (.backupError msg) ∧
      (mainRun rawDemo cfgDemo worldBackupFail).exitCode = 1 ∧
      (mainRun rawDemo cfgDemo worldBackupFail).stepsStarted =
        [Step.environment_validation, Step.backup] ∧
      (mainRun rawDemo cfgDemo worldBackupFail).events =
        [Event.procRun (pg_dump_cmd cfgDemo (backupPath cfgDemo worldBackupFail))] ∧
      (mainRun rawDemo cfgDemo worldBackupFail).cleanupRan = false) ∧
    (mainRun rawDemo cfgDemo worldOk).exitCode = 0 :=
  ⟨(backup_failure_halts rawDemo cfgDemo worldBackupFail).1 (by decide)
      (Or.inr (Or.inl ⟨⟨1, "", "dump err"⟩, rfl, by decide⟩)),
   (backup_failure_halts rawDemo cfgDemo worldOk).2
      (by intro i hi; interval_cases i <;> decide)⟩

/-- Any snapshot list element of a range of statusUpTo values is one of
them. -/
lemma mem_range_map_statusUpTo {s : OpsStatus} {n : Nat}
    (hs : s ∈ (List.range n).map statusUpTo) :
    ∃ k, k < n ∧ s = statusUpTo k := by
  simp only [List.mem_map, List.mem_range] at hs
  obtain ⟨k, hk, rfl⟩ := hs
  exact ⟨k, hk, rfl⟩

/-- Claim C8: at every point of a run, the operations_status record
marks a prefix of the fixed step order, and a step is marked only when
it and every earlier step returned successfully. -/
theorem status_record_is_ordered (raw : RawConfig) (cfg : LoadedConfig) (w : World)
    (s : OpsStatus) (hs : s ∈ (mainRun raw cfg w).snapshots) :
    ∃ k, k ≤ 6 ∧ s = statusUpTo k ∧ ∀ i, i < k → stepOk raw cfg w i = true := by
  unfold mainRun at hs
  cases h0 : (validate_environment raw).ok with
  | error e =>
      simp only [h0, failResult] at hs
      obtain ⟨k, hk, rfl⟩ := mem_range_map_statusUpTo hs
      exact ⟨k, by omega, rfl, fun i hi => absurd hi (by omega)⟩
  | ok b0 =>
  simp only [h0] at hs
  cases h1 : (backup_database cfg w.backupW (backupFileName cfg w) (backupPath cfg w)).ok with
  | error e =>
      simp only [h1, failResult] at hs
      obtain ⟨k, hk, rfl⟩ := mem_range_map_statusUpTo hs
      refine ⟨k, by omega, rfl, fun i hi => ?_⟩
      have hik : i < 1 := by omega
      interval_cases i
      · exact opOk_of_ok h0
  | ok b1 =>
  simp only [h1] at hs
  cases h2 : (disconnect_users cfg w.drainW).ok with
  | error e =>
      simp only [h2, failResult] at hs
      obtain ⟨k, hk, rfl⟩ := mem_range_map_statusUpTo hs
      refine ⟨k, by omega, rfl, fun i hi => ?_⟩
      have hik : i < 2 := by omega
      interval_cases i
      · exact opOk_of_ok h0
      · exact opOk_of_ok h1
  | ok b2 =>
  simp only [h2] at hs
  cases h3 : (recreate_target_db cfg w.recreateW).ok with
  | error e =>
      simp only [h3, failResult] at hs
      obtain ⟨k, hk, rfl⟩ := mem_range_map_statusUpTo hs
      refine ⟨k, by omega, rfl, fun i hi => ?_⟩
      have hik : i < 3 := by omega
      interval_cases i
      · exact opOk_of_ok h0
      · exact opOk_of_ok h1
      · exact opOk_of_ok h2
  | ok b3 =>
  simp only [h3] at hs
  cases h4 : (restore_database cfg w.restoreW (backupPath cfg w)).ok with
  | error e =>
      simp only [h4, failResult] at hs
      obtain ⟨k, hk, rfl⟩ := mem_range_map_statusUpTo hs
      refine ⟨k, by omega, rfl, fun i hi => ?_⟩
      have hik : i < 4 := by omega
      interval_cases i
      · exact opOk_of_ok h0
      · exact opOk_of_ok h1
      · exact opOk_of_ok h2
      · exact opOk_of_ok h3
  | ok b4 =>
  simp only [h4] at hs
  cases h5 : (alter_db_owner cfg w.alterW).ok with
  | error e =>
      simp only [h5, failResult] at hs
      obtain ⟨k, hk, rfl⟩ := mem_range_map_statusUpTo hs
      refine ⟨k, by omega, rfl, fun i hi => ?_⟩
      have hik : i < 5 := by omega
      interval_cases i
      · exact opOk_of_ok h0
      · exact opOk_of_ok h1
      · exact opOk_of_ok h2
      · exact opOk_of_ok h3
      · exact opOk_of_ok h4
  | ok b5 =>
  simp only [h5] at hs
  obtain ⟨k, hk, rfl⟩ := mem_range_map_statusUpTo hs
  refine ⟨k, by omega, rfl, fun i hi => ?_⟩
  have hik : i < 6 := by omega
  interval_cases i
  · exact opOk_of_ok h0
  · exact opOk_of_ok h1
  · exact opOk_of_ok h2
  · exact opOk_of_ok h3
  · exact opOk_of_ok h4
  · exact opOk_of_ok h5

/-- Witness for claim C8 at a concrete snapshot of a concrete run. -/
theorem status_record_is_ordered_witness :
    ∃ k, k ≤ 6 ∧ statusUpTo 3 = statusUpTo k ∧
      ∀ i, i < k → stepOk rawDemo cfgDemo worldOk i = true :=
  status_record_is_ordered rawDemo cfgDemo worldOk (statusUpTo 3) (by decide)

/-- Every run either skipped the retention sweep (and deleted nothing),
or completed all six steps and deleted exactly what the sweep deletes. -/
lemma mainRun_cleanup_shape (raw : RawConfig) (cfg : LoadedConfig) (w : World) :
    ((mainRun raw cfg w).cleanupRan = false ∧ (mainRun raw cfg w).deleted = []) ∨
    ((mainRun raw cfg w).cleanupRan = true ∧
      (mainRun raw cfg w).status = statusUpTo 6 ∧
      (∀ i, i < 6 → stepOk raw cfg w i = true) ∧
      (mainRun raw cfg w).deleted =
        (cleanup_old_backups w.cleanupDirExists w.files w.now 7).2) := by
  unfold mainRun
  cases h0 : (validate_environment raw).ok with
  | error e => simp [h0, failResult]
  | ok b0 =>
  simp only [h0]
  cases h1 : (backup_database cfg w.backupW (backupFileName cfg w) (backupPath cfg w)).ok with
  | error e => simp [h1, failResult]
  | ok b1 =>
  simp only [h1]
  cases h2 : (disconnect_users cfg w.drainW).ok with
  | error e => simp [h2, failResult]
  | ok b2 =>
  simp only [h2]
  cases h3 : (recreate_target_db cfg w.recreateW).ok with
  | error e => simp [h3, failResult]
  | ok b3 =>
  simp only [h3]
  cases h4 : (restore_database cfg w.restoreW (backupPath cfg w)).ok with
  | error e => simp [h4, failResult]
  | ok b4 =>
  simp only [h4]
  cases h5 : (alter_db_owner cfg w.alterW).ok with
  | error e => simp [h5, failResult]
  | ok b5 =>
  simp only [h5]
  right
  refine ⟨by trivial, by trivial, ?_, by trivial⟩
  intro i hi
  interval_cases i
  · exact opOk_of_ok h0
  · exact opOk_of_ok h1
  · exact opOk_of_ok h2
  · exact opOk_of_ok h3
  · exact opOk_of_ok h4
  · exact opOk_of_ok h5

/-- Claim C7: the retention sweep runs only after all six steps have
succeeded, deletes exactly the sql backup files strictly older than the
seven-day cutoff, and never deletes a file from this run (one whose
modification time is within the retention window of the sweep time, as
the backup produced moments earlier in the same run is). -/
theorem retention_sweep_correct (raw : RawConfig) (cfg : LoadedConfig) (w : World) :
    ((mainRun raw cfg w).cleanupRan = true → ∀ i, i < 6 → stepOk raw cfg w i = true) ∧
    (w.cleanupDirExists = true → (mainRun raw cfg w).cleanupRan = true →
      (mainRun raw cfg w).deleted =
        w.files.filter (fun f =>
          sqlGlobMatch f.name && decide (f.mtime < w.now - 7 * 24 * 3600))) ∧
    (∀ f, f ∈ w.files → f.name = backupFileName cfg w →
      w.now - f.mtime ≤ 7 * 24 * 3600 → f ∉ (mainRun raw cfg w).deleted) := by
  refine ⟨?_, ?_, ?_⟩
  · intro hr
    rcases mainRun_cleanup_shape raw cfg w with ⟨hf, _⟩ | ⟨_, _, hsteps, _⟩
    · rw [hr] at hf; exact absurd hf (by simp)
    · exact hsteps
  · intro hd hr
    rcases mainRun_cleanup_shape raw cfg w with ⟨hf, _⟩ | ⟨_, _, _, hdel⟩
    · rw [hr] at hf; exact absurd hf (by simp)
    · rw [hdel]; simp [cleanup_old_backups, hd]
  · intro f hfmem hname hrecent hmem
    rcases mainRun_cleanup_shape raw cfg w with ⟨_, hdel⟩ | ⟨_, _, _, hdel⟩
    · rw [hdel] at hmem; exact absurd hmem (List.not_mem_nil f)
    · rw [hdel] at hmem
      by_cases hd : w.cleanupDirExists
      · simp [cleanup_old_backups, hd, List.mem_filter] at hmem
        omega
      · simp [cleanup_old_backups, hd] at hmem

/-- Witness for claim C7 at a concrete run holding one stale and one
fresh backup file: only the stale file is deleted. -/
theorem retention_sweep_correct_witness :
    (∀ i, i < 6 → stepOk rawDemo cfgDemo worldFiles i = true) ∧
    ((mainRun rawDemo cfgDemo worldFiles).deleted =
      worldFiles.files.filter (fun f =>
        sqlGlobMatch f.name && decide (f.mtime < worldFiles.now - 7 * 24 * 3600))) ∧
    freshSqlFile ∉ (mainRun rawDemo cfgDemo worldFiles).deleted :=
  ⟨(retention_sweep_correct rawDemo cfgDemo worldFiles).1 (by decide),
   (retention_sweep_correct rawDemo cfgDemo worldFiles).2.1 rfl (by decide),
   (retention_sweep_correct rawDemo cfgDemo worldFiles).2.2 freshSqlFile
     (by decide) (by decide) (by decide)⟩

/-- Two strings whose leading literals are incomparable stay different
under any suffixes. -/
lemma append_ne_of_data_ne (a b s t : String)
    (h1 : ¬ a.data <+: b.data) (h2 : ¬ b.data <+: a.data) :
    a ++ s ≠ b ++ t := by
  intro he
  have hd : a.data ++ s.data = b.data ++ t.data := by
    have hc := congrArg String.data he
    rwa [String.data_append, String.data_append] at hc
  have p1 : a.data <+: b.data ++ t.data := by
    rw [← hd]
    exact List.prefix_append a.data s.data
  have p2 : b.data <+: b.data ++ t.data := List.prefix_append b.data t.data
  have htot := List.prefix_or_prefix_of_prefix p1 p2
  rcases htot with hp | hp
  · exact h1 hp
  · exact h2 hp

/-- The drop statement never coincides with the existence check. -/
lemma dropdb_ne_check (n : String) : dropdb_query n ≠ check_query n := by
  unfold dropdb_query check_query
  simp only [String.append_assoc]
  exact append_ne_of_data_ne _ _ _ _ (by decide) (by decide)

/-- The drop statement never coincides with the create statement. -/
lemma dropdb_ne_createdb (n m o : String) :
    dropdb_query n ≠ createdb_query m o := by
  unfold dropdb_query createdb_query
  simp only [String.append_assoc]
  exact append_ne_of_data_ne _ _ _ _ (by decide) (by decide)

/-- The termination query never coincides with the counting query. -/
lemma terminate_ne_count (n m : String) :
    terminate_query n ≠ count_query m := by
  unfold terminate_query count_query
  simp only [String.append_assoc]
  exact append_ne_of_data_ne _ _ _ _ (by decide) (by decide)

/-- Every SQL statement in the trace is preceded by the autocommit
switch. -/
def autocommitBeforeSql (evs : List Event) : Prop :=
  ∀ pre q post, evs = pre ++ Event.executeSql q :: post → Event.setAutocommit ∈ pre

/-- A one-event trace whose event is not a statement satisfies the
autocommit ordering vacuously. -/
lemma autocommitBeforeSql_single (c : Event) (hc : ∀ q, c ≠ Event.executeSql q) :
    autocommitBeforeSql [c] := by
  intro pre q post h
  cases pre with
  | nil =>
      simp only [List.nil_append] at h
      injection h with h1 _
      exact absurd h1 (hc q)
  | cons a pre' =>
      injection h with h1 h2
      exact absurd h2 (by simp)

/-- A trace whose second event is the autocommit switch and whose first
event is not a statement satisfies the autocommit ordering. -/
lemma autocommitBeforeSql_cons2 (c : Event) (tail : List Event)
    (hc : ∀ q, c ≠ Event.executeSql q) :
    autocommitBeforeSql (c :: Event.setAutocommit :: tail) := by
  intro pre q post h
  cases pre with
  | nil =>
      simp only [List.nil_append] at h
      injection h with h1 _
      exact absurd h1 (hc q)
  | cons a pre' =>
      injection h with h1 h2
      cases pre' with
      | nil =>
          try simp only [List.nil_append] at h2
          injection h2 with h3 _
          simp at h3
      | cons b pre'' =>
          injection h2 with h3 _
          subst h3
          simp

/-- Counterexample to claim C4 as stated: a configuration that assigns
the dev database the same name as the restore target (the default
target name) is accepted by the loader, and recreate_target_db then
opens its session against the target database itself. -/
def rawShared : RawConfig :=
  [("db_name", "ngceng"), ("db_owner", "scuc"), ("db_admin", "ngadmin"),
   ("db_host", "prod.example.com"), ("db_port", "5432"),
   ("script_root_path", "/opt/dbbackup"), ("db_dev_name", "ngceng_prod_db")]

/-- The configuration loaded from rawShared: its dev database equals
the local target. -/
def cfgShared : LoadedConfig := { cfgDemo with db_dev_name := "ngceng_prod_db" }

/-- Counterexample for claim C4: under the rawShared configuration the
recreate operation connects to the target database itself, so the
session is not opened against a database that is never the target. -/
theorem recreate_connects_to_target :
    loadConfig rawShared = .ok cfgShared ∧
    cfgShared.db_dev_name = cfgShared.local_db_name ∧
    (recreate_target_db cfgShared recreateWOk).events.head? =
      some (Event.connectDb cfgShared.local_db_name true) := by
  refine ⟨rfl, by decide, by decide⟩

/-- Claim C4 as amended: recreate_target_db opens its session against
the configured dev database (which differs from the target exactly when
the configuration keeps the two names distinct), switches to autocommit
before issuing any statement, issues the DROP only when the existence
check found the target, and issues the CREATE with the configured owner
whenever the operation succeeds. -/
theorem recreate_behavior (cfg : LoadedConfig) (w : RecreateWorld) :
    (cfg.db_dev_name ≠ cfg.local_db_name →
      ∀ l, Event.connectDb cfg.local_db_name l ∉ (recreate_target_db cfg w).events) ∧
    autocommitBeforeSql (recreate_target_db cfg w).events ∧
    (Event.executeSql (dropdb_query cfg.local_db_name) ∈
        (recreate_target_db cfg w).events → w.dbExists = true) ∧
    (opOk (recreate_target_db cfg w) = true →
      Event.executeSql (createdb_query cfg.local_db_name cfg.local_db_owner) ∈
        (recreate_target_db cfg w).events) := by
  obtain ⟨co, de, dr, cr⟩ := w
  refine ⟨?_, ?_, ?_, ?_⟩
  · intro hne l
    cases co <;> cases de <;> cases dr <;> cases cr <;>
      simp [recreate_target_db, hne, Ne.symm hne]
  · cases co <;> cases de <;> cases dr <;> cases cr <;>
      first
        | exact autocommitBeforeSql_single _ (fun q h => by cases h)
        | exact autocommitBeforeSql_cons2 _ _ (fun q h => by cases h)
  · cases co <;> cases de <;> cases dr <;> cases cr <;>
      simp [recreate_target_db, dropdb_ne_check, dropdb_ne_createdb]
  · cases co <;> cases de <;> cases dr <;> cases cr <;>
      simp [recreate_target_db, opOk]

/-- Witness for the amended claim C4 at a concrete distinct-names
configuration and a world where the target exists. -/
theorem recreate_behavior_witness :
    (Event.connectDb cfgDemo.local_db_name true ∉
      (recreate_target_db cfgDemo recreateWOk).events) ∧
    recreateWOk.dbExists = true ∧
    Event.executeSql (createdb_query cfgDemo.local_db_name cfgDemo.local_db_owner) ∈
      (recreate_target_db cfgDemo recreateWOk).events :=
  ⟨(recreate_behavior cfgDemo recreateWOk).1 (by decide) true,
   (recreate_behavior cfgDemo recreateWOk).2.2.1 (by decide),
   (recreate_behavior cfgDemo recreateWOk).2.2.2 (by decide)⟩

/-- A configuration whose db_name key is entirely absent. -/
def rawMissingName : RawConfig :=
  [("db_owner", "scuc"), ("db_admin", "ngadmin"), ("db_host", "prod.example.com"),
   ("db_port", "5432"), ("script_root_path", "/opt/dbbackup"),
   ("db_dev_name", "ngceng_dev")]

/-- A configuration whose db_owner key is present but empty. -/
def rawEmptyOwner : RawConfig :=
  [("db_name", "ngceng"), ("db_owner", ""), ("db_admin", "ngadmin"),
   ("db_host", "prod.example.com"), ("db_port", "5432"),
   ("script_root_path", "/opt/dbbackup"), ("db_dev_name", "ngceng_dev")]

/-- Counterexample for claim C5: when a required key is absent from the
file, startup dies at module import with a bare KeyError naming only
the first absent key, not with the descriptive validation error naming
the missing keys (the run outcome is keyError, not a completed main
run carrying the validation message). -/
theorem absent_key_gives_bare_keyerror :
    startup rawMissingName worldOk = StartOutcome.keyError "db_name" ∧
    missing_configs rawMissingName = ["db_name"] :=
  ⟨rfl, by decide⟩

/-- Claim C5 as amended: for every configuration missing a required key
(absent or empty), startup fails before any database connection is
attempted and before any pipeline step runs; a configuration that loads
(keys present but empty) fails with the descriptive validation error
naming the missing keys, while an absent key aborts earlier, at module
import, with a key error. -/
theorem missing_config_aborts_startup (raw : RawConfig) (w : World)
    (hm : missing_configs raw ≠ []) :
    (∃ k, startup raw w = .keyError k) ∨
    (∃ r, startup raw w = .ran r ∧ r.exitCode = 1 ∧
      r.err = some (.processError ("Missing required configuration values: " ++
        String.intercalate ", " (missing_configs raw))) ∧
      r.stepsStarted = [Step.environment_validation] ∧
      r.events = [] ∧ r.status = statusUpTo 0) := by
  unfold startup
  cases hl : loadConfig raw with
  | error k => exact Or.inl ⟨k, rfl⟩
  | ok cfg =>
      right
      have hveq : validate_environment raw =
          { logs := [⟨.error, "Missing required configuration values: " ++
              String.intercalate ", " (missing_configs raw)⟩],
            events := [],
            ok := .error (.processError ("Missing required configuration values: " ++
              String.intercalate ", " (missing_configs raw))) } := by
        simp [validate_environment, hm]
      refine ⟨mainRun raw cfg w, rfl, ?_⟩
      simp [mainRun, hveq, failResult, stepOrder]

/-- Witness for the amended claim C5 at a configuration whose db_owner
value is empty. -/
theorem missing_config_aborts_startup_witness :
    (∃ k, startup rawEmptyOwner worldOk = .keyError k) ∨
    (∃ r, startup rawEmptyOwner worldOk = .ran r ∧ r.exitCode = 1 ∧
      r.err = some (.processError ("Missing required configuration values: " ++
        String.intercalate ", " (missing_configs rawEmptyOwner))) ∧
      r.stepsStarted = [Step.environment_validation] ∧
      r.events = [] ∧ r.status = statusUpTo 0) :=
  missing_config_aborts_startup rawEmptyOwner worldOk (by decide)

/-- A drain world whose only other session is a parallel worker (its
leader backend is set). -/
def drainWWorker : DrainWorld :=
  { connectOk := true, ownPid := 1,
    sessions := [⟨7, "ngceng_prod_db", some 3⟩],
    termResult := fun _ => true,
    sessionsAfter := [⟨7, "ngceng_prod_db", some 3⟩] }

/-- Counterexample for claim C6: one session against the target other
than the callers backend exists (a parallel worker), so the count the
claim describes is non-zero, yet no terminate-backend statement is
issued and the operation succeeds: both queries also exclude sessions
with a leader backend. -/
theorem drain_skips_parallel_worker :
    ((drainWWorker.sessions.filter (fun s =>
        s.datname == cfgDemo.local_db_name && s.pid != drainWWorker.ownPid)).length = 1) ∧
    Event.executeSql (terminate_query cfgDemo.local_db_name) ∉
      (disconnect_users cfgDemo drainWWorker).events ∧
    opOk (disconnect_users cfgDemo drainWWorker) = true := by
  refine ⟨by decide, by decide, by decide⟩

/-- Claim C6 as amended: counting excludes the callers own backend and
parallel-worker backends; when that count is zero no terminate
statement is issued and the operation succeeds, otherwise the set-based
terminate statement covering every such session is issued, the count is
re-taken, remaining sessions are only warned about, and the operation
still succeeds. -/
theorem drain_behavior (cfg : LoadedConfig) (w : DrainWorld)
    (hc : w.connectOk = true) :
    ((w.sessions.filter (drainMatches cfg.local_db_name w.ownPid)).length = 0 →
      Event.executeSql (terminate_query cfg.local_db_name) ∉
        (disconnect_users cfg w).events ∧
      opOk (disconnect_users cfg w) = true) ∧
    ((w.sessions.filter (drainMatches cfg.local_db_name w.ownPid)).length ≠ 0 →
      (disconnect_users cfg w).events =
        [Event.connectDb cfg.local_db_name true,
         Event.executeSql (count_query cfg.local_db_name),
         Event.executeSql (terminate_query cfg.local_db_name),
         Event.executeSql (count_query cfg.local_db_name),
         Event.closeDb] ∧
      opOk (disconnect_users cfg w) = true ∧
      ((w.sessionsAfter.filter (drainMatches cfg.local_db_name w.ownPid)).length > 0 →
        (⟨.warning,
          toString (w.sessionsAfter.filter (drainMatches cfg.local_db_name w.ownPid)).length
            ++ " connections still active after termination attempt"⟩ : LogEntry) ∈
          (disconnect_users cfg w).logs)) := by
  constructor
  · intro h0
    unfold disconnect_users
    simp [hc, h0, opOk, terminate_ne_count]
  · intro hn
    unfold disconnect_users
    simp [hc, hn, opOk]
    intro hw
    simp [hw]

/-- A drain world with three regular sessions against the target, one
of which survives the termination attempt. -/
def drainWBusy : DrainWorld :=
  { connectOk := true, ownPid := 1,
    sessions := [⟨2, "ngceng_prod_db", none⟩, ⟨3, "ngceng_prod_db", none⟩,
                 ⟨4, "ngceng_prod_db", none⟩],
    termResult := fun _ => true,
    sessionsAfter := [⟨4, "ngceng_prod_db", none⟩] }

/-- Witness for the amended claim C6: a quiet target produces no
terminate statement, and a busy target (three sessions, one surviving)
produces the full trace with the warning. -/
theorem drain_behavior_witness :
    (Event.executeSql (terminate_query cfgDemo.local_db_name) ∉
      (disconnect_users cfgDemo drainWOk).events ∧
     opOk (disconnect_users cfgDemo drainWOk) = true) ∧
    ((disconnect_users cfgDemo drainWBusy).events =
      [Event.connectDb cfgDemo.local_db_name true,
       Event.executeSql (count_query cfgDemo.local_db_name),
       Event.executeSql (terminate_query cfgDemo.local_db_name),
       Event.executeSql (count_query cfgDemo.local_db_name),
       Event.closeDb] ∧
     opOk (disconnect_users cfgDemo drainWBusy) = true ∧
     ((drainWBusy.sessionsAfter.filter
        (drainMatches cfgDemo.local_db_name drainWBusy.ownPid)).length > 0 →
       (⟨.warning,
         toString (drainWBusy.sessionsAfter.filter
           (drainMatches cfgDemo.local_db_name drainWBusy.ownPid)).length
           ++ " connections still active after termination attempt"⟩ : LogEntry) ∈
         (disconnect_users cfgDemo drainWBusy).logs)) :=
  ⟨(drain_behavior cfgDemo drainWOk rfl).1 (by decide),
   (drain_behavior cfgDemo drainWBusy rfl).2 (by decide)⟩

/-- The all-success pipeline world except that the artifact the backup
produced and the restore reads is 200 bytes. -/
def worldSmall : World :=
  { worldOk with
      backupW := { backupWOk with fileSize := 200 }
      restoreW := { restoreWOk with fileSize := 200 } }

/-- Counterexample for claim C3: a full pipeline run over a 200-byte
artifact (below the 1 KiB floor) still invokes both restore phases and
exits 0; the undersized artifact only draws a warning at backup time. -/
theorem undersized_backup_still_restored :
    (mainRun rawDemo cfgDemo worldSmall).exitCode = 0 ∧
    Event.procRun (schema_restore_cmd cfgDemo (backupPath cfgDemo worldSmall)) ∈
      (mainRun rawDemo cfgDemo worldSmall).events ∧
    Event.procRun (data_restore_cmd cfgDemo (backupPath cfgDemo worldSmall)) ∈
      (mainRun rawDemo cfgDemo worldSmall).events ∧
    worldSmall.restoreW.fileSize < 1024 ∧
    (⟨.warning,
      "Backup file size is very small (200 bytes) - this may indicate an issue"⟩ :
      LogEntry) ∈ (mainRun rawDemo cfgDemo worldSmall).logs := by
  refine ⟨by decide, by decide, by decide, by decide, by decide⟩

/-- Claim C3 as amended: before the restore invokes either external
phase the artifact exists and is a regular file, while the 1 KiB floor
is advisory only: an undersized artifact draws a warning during backup
verification and the backup still succeeds (so restore proceeds). -/
theorem restore_preconditions (cfg : LoadedConfig) (w : RestoreWorld)
    (bw : BackupWorld) (path bf bp : String) :
    ((Event.procRun (schema_restore_cmd cfg path) ∈ (restore_database cfg w path).events ∨
      Event.procRun (data_restore_cmd cfg path) ∈ (restore_database cfg w path).events) →
      w.fileExists = true ∧ w.fileIsFile = true) ∧
    (bw.fileSize < 1024 →
      (∃ q, bw.pgDump = ProcOutcome.completed q ∧ q.returncode = 0) →
      bw.fileCreated = true →
      ((⟨.warning, "Backup file size is very small (" ++ toString bw.fileSize ++
          " bytes) - this may indicate an issue"⟩ : LogEntry) ∈
        (backup_database cfg bw bf bp).logs ∧
       opOk (backup_database cfg bw bf bp) = true)) := by
  constructor
  · intro hmem
    by_cases he : w.fileExists
    · by_cases hf : w.fileIsFile
      · exact ⟨he, hf⟩
      · simp [restore_database, he, hf] at hmem
    · simp [restore_database, he] at hmem
  · intro hsize ⟨q, hq, hrc⟩ hfc
    constructor
    · simp [backup_database, runChecked, hq, hrc, hfc, hsize]
    · simp [backup_database, opOk, runChecked, hq, hrc, hfc]

/-- Witness for the amended claim C3: the healthy restore world has the
checked preconditions, and the 200-byte backup world logs the warning
while succeeding. -/
theorem restore_preconditions_witness :
    (restoreWOk.fileExists = true ∧ restoreWOk.fileIsFile = true) ∧
    ((⟨.warning, "Backup file size is very small (200 bytes) - this may indicate an issue"⟩ :
        LogEntry) ∈
      (backup_database cfgDemo (worldSmall.backupW)
        (backupFileName cfgDemo worldSmall) (backupPath cfgDemo worldSmall)).logs ∧
     opOk (backup_database cfgDemo (worldSmall.backupW)
        (backupFileName cfgDemo worldSmall) (backupPath cfgDemo worldSmall)) = true) :=
  ⟨(restore_preconditions cfgDemo restoreWOk worldSmall.backupW "_db_backups/x.sql"
      (backupFileName cfgDemo worldSmall) (backupPath cfgDemo worldSmall)).1
      (Or.inl (by decide)),
   (restore_preconditions cfgDemo restoreWOk worldSmall.backupW "_db_backups/x.sql"
      (backupFileName cfgDemo worldSmall) (backupPath cfgDemo worldSmall)).2
      (by decide) ⟨⟨0, "", "ok"⟩, rfl, rfl⟩ rfl⟩
